import Mathlib

/-!
Verification of the Sleuth Kit `TskAuto` traversal engine
(tsk3/auto/auto.cpp).

Shallow embedding of the file-extraction automation class `TskAuto`.
External collaborators (image / volume-system / file-system access,
the overridable virtual hooks `filterVol`, `filterFs`, `processFile`,
`processAttribute`) are supplied through an explicit environment
record `Env`.  The process-wide last-error slot (`tsk_error_*`) is
threaded explicitly as a `Bool` ("an error is currently recorded").
Each operation additionally returns a trace of observable events
(handle opens/closes, walk launches, hook invocations) so that
resource and "never invoked" properties can be stated.
-/

set_option autoImplicit false
set_option linter.unusedVariables false

namespace TskAutoModel

/-- Enum `TSK_RETVAL_ENUM`: the three-valued traversal outcome (ok / error / stop). -/
inductive TSK_RETVAL_ENUM where
  | TSK_OK
  | TSK_ERR
  | TSK_STOP
  deriving DecidableEq, Repr

/-- Enum `TSK_WALK_RET_ENUM`: the lower-layer walk continuation signal. -/
inductive TSK_WALK_RET_ENUM where
  | TSK_WALK_CONT
  | TSK_WALK_STOP
  | TSK_WALK_ERROR
  deriving DecidableEq, Repr

/-- Enum `TSK_FILTER_ENUM`: verdict of the caller-overridable filter hooks. -/
inductive TSK_FILTER_ENUM where
  | TSK_FILTER_CONT
  | TSK_FILTER_SKIP
  | TSK_FILTER_STOP
  deriving DecidableEq, Repr

open TSK_RETVAL_ENUM TSK_WALK_RET_ENUM TSK_FILTER_ENUM

/-- Sentinel stored in `m_tag` (`TSK_AUTO_TAG` in `tsk_auto_i.h`, outside
`src/`; its exact value is immaterial, only that it is a fixed nonzero
sentinel, since the destructor zeroes the tag). -/
def TSK_AUTO_TAG : Nat := 0x9191a1a1

/-- Constant `TSK_VS_PART_FLAG_ALLOC` (header outside `src/`; standard library value). -/
def TSK_VS_PART_FLAG_ALLOC : Nat := 1

/-- Constant `TSK_FS_DIR_WALK_FLAG_RECURSE` (header outside `src/`; standard library value). -/
def TSK_FS_DIR_WALK_FLAG_RECURSE : Nat := 4

/-- Constant `TSK_FS_NAME_TYPE_DIR` from the `TSK_FS_NAME_TYPE_ENUM` of the library
header (outside `src/`): the directory entry type code. -/
def TSK_FS_NAME_TYPE_DIR : Nat := 3

/-- Constant `TSK_FS_NAME_TYPE_REG`: the regular-file entry type code. -/
def TSK_FS_NAME_TYPE_REG : Nat := 5

/-- Constant `TSK_FS_NAME_FLAG_ALLOC`: name-structure allocation-state flag bit. -/
def TSK_FS_NAME_FLAG_ALLOC : Nat := 1

/-- Structure `TSK_VS_INFO`: the fields of an open volume system that `auto.cpp` reads. -/
structure TSK_VS_INFO where
  block_size : Nat
  part_count : Nat
  deriving DecidableEq, Repr

/-- Structure `TSK_VS_PART_INFO`: partition descriptor fields read by `vsWalkCb`. -/
structure TSK_VS_PART_INFO where
  start : Nat
  vs : TSK_VS_INFO
  deriving DecidableEq, Repr

/-- Structure `TSK_FS_INFO`: the fields of an open file system that `auto.cpp` reads. -/
structure TSK_FS_INFO where
  root_inum : Nat
  ftype : Nat
  deriving DecidableEq, Repr

/-- Structure `TSK_FS_NAME`: directory-entry name structure fields read by the
predicate utilities (`name` is the raw byte buffer, `name_size` its size). -/
structure TSK_FS_NAME where
  flags : Nat
  type : Nat
  name : List Nat
  name_size : Nat
  meta_addr : Nat
  deriving DecidableEq, Repr

/-- Structure `TSK_FS_FILE`: the file handle delivered by the directory walk
(`fs_info` and `name` are nullable pointers in C, hence `Option`). -/
structure TSK_FS_FILE where
  fs_info : Option TSK_FS_INFO
  name : Option TSK_FS_NAME
  deriving DecidableEq, Repr

/-- An attribute handle (opaque to `auto.cpp`; identified here by an id). -/
structure TSK_FS_ATTR where
  attr_id : Nat
  deriving DecidableEq, Repr

/-- Session state: the fields of class `TskAuto`. -/
structure TskAuto where
  m_img_info : Option Nat
  m_tag : Nat
  m_volFilterFlags : Nat
  m_fileFilterFlags : Nat
  deriving DecidableEq, Repr

/-- Observable events of one traversal: handle lifecycle, walk launches,
and hook invocations, in program order. -/
inductive Event where
  | evImgOpen (h : Nat)
  | evImgClose (h : Nat)
  | evFilterVol (start : Nat)
  | evFilterFs (inum : Nat)
  | evFsOpen (off : Nat)
  | evFsOpenFail (off : Nat)
  | evFsClose (off : Nat)
  | evDirWalk (inum : Nat) (flags : Nat)
  | evVsPartWalk (cnt : Nat) (flags : Nat)
  | evProcessFile
  deriving DecidableEq, Repr

/-- Holds exactly on a file-system-open event. -/
def Event.isFsOpen : Event → Bool
  | Event.evFsOpen _ => true
  | _ => false

/-- Holds exactly on a directory-walk-launch event. -/
def Event.isDirWalk : Event → Bool
  | Event.evDirWalk _ _ => true
  | _ => false

/-- Holds exactly on an image-close event. -/
def Event.isImgClose : Event → Bool
  | Event.evImgClose _ => true
  | _ => false

/-- The external collaborators and overridable virtual hooks that
`auto.cpp` calls, as one environment record.  Lower-layer open calls
return `none` for the NULL (failure) result; the external enumeration
primitives (`tsk_vs_part_walk`, `tsk_fs_dir_walk`) are opaque
error-state transformers returning their `uint8_t` result. -/
structure Env where
  tsk_img_open : Nat → Option Nat
  tsk_vs_open : Nat → Option TSK_VS_INFO
  tsk_vs_part_walk : TSK_VS_INFO → Nat → Nat → Nat → Bool → Nat × Bool
  tsk_fs_open_img : Nat → Option TSK_FS_INFO
  tsk_fs_dir_walk : TSK_FS_INFO → Nat → Nat → Bool → Nat × Bool
  tsk_fs_file_attr_getsize : TSK_FS_FILE → Nat
  tsk_fs_file_attr_get_idx : TSK_FS_FILE → Nat → TSK_FS_ATTR
  filterVol : TSK_VS_PART_INFO → TSK_FILTER_ENUM
  filterFs : TSK_FS_INFO → TSK_FILTER_ENUM
  processFile : TSK_FS_FILE → List Nat → TSK_RETVAL_ENUM
  processAttribute : TSK_FS_FILE → TSK_FS_ATTR → List Nat → TSK_RETVAL_ENUM

/-- Constructor `TskAuto::TskAuto()`: the constructor's field initialisation. -/
def TskAuto.init : TskAuto :=
  { m_img_info := none
    m_tag := TSK_AUTO_TAG
    m_volFilterFlags := TSK_VS_PART_FLAG_ALLOC
    m_fileFilterFlags := TSK_FS_DIR_WALK_FLAG_RECURSE }

/-- Method `TskAuto::closeImage()`: closes the image handle if present. -/
def closeImage (tsk : TskAuto) : TskAuto × List Event :=
  match tsk.m_img_info with
  | some h => ({ tsk with m_img_info := none }, [Event.evImgClose h])
  | none => (tsk, [])

/-- Destructor `TskAuto::~TskAuto()`: closes the image and zeroes the tag. -/
def destructTskAuto (tsk : TskAuto) : TskAuto × List Event :=
  let (t1, tr) := closeImage tsk
  ({ t1 with m_tag := 0 }, tr)

/-- Method `TskAuto::openImage(...)`: closes any previously open image, then
opens the new one (`args` stands for the `(a_numImg, a_images, a_imgType,
a_sSize)` argument tuple, opaque to this layer).  Returns the `uint8_t`
result, the new session state, and the event trace. -/
def openImage (env : Env) (tsk : TskAuto) (args : Nat) :
    Nat × TskAuto × List Event :=
  let (tsk1, tr1) :=
    if tsk.m_img_info.isSome then closeImage tsk else (tsk, [])
  match env.tsk_img_open args with
  | some h => (0, { tsk1 with m_img_info := some h }, tr1 ++ [Event.evImgOpen h])
  | none => (1, { tsk1 with m_img_info := none }, tr1)

/-- Method `TskAuto::findFilesInFsInt(a_fs_info, a_inum)`: apply the
file-system filter, then launch the recursive directory walk.
A failed probe by a collaborator records an error in the shared slot,
so `tsk_fs_dir_walk`'s effect on the slot is environment-supplied. -/
def findFilesInFsInt (env : Env) (tsk : TskAuto) (a_fs_info : TSK_FS_INFO)
    (a_inum : Nat) (err : Bool) : TSK_RETVAL_ENUM × Bool × List Event :=
  match env.filterFs a_fs_info with
  | TSK_FILTER_STOP => (TSK_STOP, err, [Event.evFilterFs a_inum])
  | TSK_FILTER_SKIP => (TSK_OK, err, [Event.evFilterFs a_inum])
  | TSK_FILTER_CONT =>
    let flags := Nat.lor TSK_FS_DIR_WALK_FLAG_RECURSE tsk.m_fileFilterFlags
    let (r, err2) := env.tsk_fs_dir_walk a_fs_info a_inum flags err
    if r ≠ 0 then
      (TSK_ERR, err2, [Event.evFilterFs a_inum, Event.evDirWalk a_inum flags])
    else
      (TSK_OK, err2, [Event.evFilterFs a_inum, Event.evDirWalk a_inum flags])

/-- Method `TskAuto::findFilesInFsRet(a_start)`: open a file system at the
offset (a failed open records an error in the shared slot), run
`findFilesInFsInt` from the root inode, and close the handle. -/
def findFilesInFsRet (env : Env) (tsk : TskAuto) (a_start : Nat)
    (err : Bool) : TSK_RETVAL_ENUM × Bool × List Event :=
  match tsk.m_img_info with
  | none => (TSK_ERR, err, [])
  | some _ =>
    match env.tsk_fs_open_img a_start with
    | none => (TSK_ERR, true, [Event.evFsOpenFail a_start])
    | some fs_info =>
      let (retval, err2, tr) :=
        findFilesInFsInt env tsk fs_info fs_info.root_inum err
      (retval, err2, Event.evFsOpen a_start :: tr ++ [Event.evFsClose a_start])

/-- Method `TskAuto::findFilesInFs(a_start)`: the `uint8_t` entry point —
only `TSK_ERR` maps to failure (1). -/
def findFilesInFs (env : Env) (tsk : TskAuto) (a_start : Nat)
    (err : Bool) : Nat × Bool × List Event :=
  let (retval, err2, tr) := findFilesInFsRet env tsk a_start err
  (if retval = TSK_ERR then 1 else 0, err2, tr)

/-- Method `TskAuto::findFilesInFs(a_start, a_inum)`: the overload that starts
the walk at an explicit inode; opens the file system, runs
`findFilesInFsInt`, closes the handle, and maps only `TSK_ERR` to 1. -/
def findFilesInFsInum (env : Env) (tsk : TskAuto) (a_start : Nat)
    (a_inum : Nat) (err : Bool) : Nat × Bool × List Event :=
  match tsk.m_img_info with
  | none => (1, err, [])
  | some _ =>
    match env.tsk_fs_open_img a_start with
    | none => (1, true, [Event.evFsOpenFail a_start])
    | some fs_info =>
      let (retval, err2, tr) := findFilesInFsInt env tsk fs_info a_inum err
      (if retval = TSK_ERR then 1 else 0, err2,
        Event.evFsOpen a_start :: tr ++ [Event.evFsClose a_start])

/-- Callback `TskAuto::vsWalkCb(a_vs_info, a_vs_part, a_ptr)`: the volume-system
walk callback — tag guard, partition filter, then per-partition file
system walk with error absorption (`tsk_error_reset`). -/
def vsWalkCb (env : Env) (tsk : TskAuto) (a_vs_part : TSK_VS_PART_INFO)
    (err : Bool) : TSK_WALK_RET_ENUM × Bool × List Event :=
  if tsk.m_tag ≠ TSK_AUTO_TAG then (TSK_WALK_STOP, err, [])
  else
    let retval1 := env.filterVol a_vs_part
    if retval1 = TSK_FILTER_SKIP then
      (TSK_WALK_CONT, err, [Event.evFilterVol a_vs_part.start])
    else if retval1 = TSK_FILTER_STOP then
      (TSK_WALK_STOP, err, [Event.evFilterVol a_vs_part.start])
    else
      let (retval2, err2, tr) :=
        findFilesInFsRet env tsk (a_vs_part.start * a_vs_part.vs.block_size) err
      if retval2 = TSK_STOP then
        (TSK_WALK_STOP, err2, Event.evFilterVol a_vs_part.start :: tr)
      else if retval2 ≠ TSK_OK then
        (TSK_WALK_CONT, false, Event.evFilterVol a_vs_part.start :: tr)
      else
        (TSK_WALK_CONT, err2, Event.evFilterVol a_vs_part.start :: tr)

/-- Callback `TskAuto::dirWalkCb(a_fs_file, a_path, a_ptr)`: the directory-walk
callback — tag guard, then per-file hook with result translation. -/
def dirWalkCb (env : Env) (tsk : TskAuto) (a_fs_file : TSK_FS_FILE)
    (a_path : List Nat) : TSK_WALK_RET_ENUM × List Event :=
  if tsk.m_tag ≠ TSK_AUTO_TAG then (TSK_WALK_STOP, [])
  else
    let retval := env.processFile a_fs_file a_path
    if retval ≠ TSK_OK then
      if retval = TSK_STOP then (TSK_WALK_STOP, [Event.evProcessFile])
      else (TSK_WALK_ERROR, [Event.evProcessFile])
    else (TSK_WALK_CONT, [Event.evProcessFile])

/-- Method `TskAuto::findFilesInVs(a_start)`: probe for a volume system; on
failure reset the shared error slot (the failed probe recorded one) and
fall back to a bare file-system walk; on success walk the partitions
and close the volume-system handle. -/
def findFilesInVs (env : Env) (tsk : TskAuto) (a_start : Nat)
    (err : Bool) : Nat × Bool × List Event :=
  match tsk.m_img_info with
  | none => (1, err, [])
  | some _ =>
    match env.tsk_vs_open a_start with
    | none =>
      let (r, err3, tr) := findFilesInFs env tsk a_start false
      (if r ≠ 0 then 1 else 0, err3, tr)
    | some vs_info =>
      let (w, err2) :=
        env.tsk_vs_part_walk vs_info 0 (vs_info.part_count - 1)
          tsk.m_volFilterFlags err
      (if w ≠ 0 then 1 else 0, err2,
        [Event.evVsPartWalk vs_info.part_count tsk.m_volFilterFlags])

/-- Method `TskAuto::findFilesInImg()`: entry point delegating to
`findFilesInVs(0)` when an image is open. -/
def findFilesInImg (env : Env) (tsk : TskAuto) (err : Bool) :
    Nat × Bool × List Event :=
  match tsk.m_img_info with
  | none => (1, err, [])
  | some _ =>
    let (r, err2, tr) := findFilesInVs env tsk 0 err
    (if r ≠ 0 then 1 else 0, err2, tr)

/-- Loop body of `TskAuto::processAttributes`: invoke the per-attribute
hook from index `i` while `n` attributes remain, recording the indices
actually invoked; stop at the first non-`TSK_OK` result. -/
def processAttributesAux (env : Env) (fs_file : TSK_FS_FILE)
    (path : List Nat) (i : Nat) : Nat → TSK_RETVAL_ENUM × List Nat
  | 0 => (TSK_OK, [])
  | n + 1 =>
    let retval :=
      env.processAttribute fs_file (env.tsk_fs_file_attr_get_idx fs_file i) path
    if retval ≠ TSK_OK then (retval, [i])
    else
      let (r2, l) := processAttributesAux env fs_file path (i + 1) n
      (r2, i :: l)

/-- Method `TskAuto::processAttributes(fs_file, path)`: iterate the
per-attribute hook over indices `0 .. count-1` with early exit. -/
def processAttributes (env : Env) (fs_file : TSK_FS_FILE)
    (path : List Nat) : TSK_RETVAL_ENUM × List Nat :=
  processAttributesAux env fs_file path 0 (env.tsk_fs_file_attr_getsize fs_file)

/-- Byte `i` of a name buffer (`name[i]` in C; the guards in the source
keep every read inside `name_size`). -/
def nameAt (nm : TSK_FS_NAME) (i : Nat) : Nat :=
  nm.name.getD i 0

/-- Method `TskAuto::isDotDir(a_fs_file, a_path)`: the source tests
`name->flags & TSK_FS_NAME_TYPE_DIR` and then compares the name buffer
against "." and "..". -/
def isDotDir (a_fs_file : Option TSK_FS_FILE) (a_path : List Nat) : Nat :=
  match a_fs_file with
  | none => 0
  | some f =>
    match f.name with
    | none => 0
    | some nm =>
      if Nat.land nm.flags TSK_FS_NAME_TYPE_DIR = 0 then 0
      else if nm.name_size ≥ 2 ∧ nameAt nm 0 = 46 ∧
          (nameAt nm 1 = 0 ∨
            (nm.name_size > 2 ∧ nameAt nm 1 = 46 ∧ nameAt nm 2 = 0)) then 1
      else 0

/-- Method `TskAuto::isDir(a_fs_file)`: `name->type == TSK_FS_NAME_TYPE_DIR`. -/
def isDir (a_fs_file : Option TSK_FS_FILE) : Nat :=
  match a_fs_file with
  | none => 0
  | some f =>
    match f.name with
    | none => 0
    | some nm => if nm.type = TSK_FS_NAME_TYPE_DIR then 1 else 0

/-- Method `TskAuto::isFile(a_fs_file)`: `name->type == TSK_FS_NAME_TYPE_REG`. -/
def isFile (a_fs_file : Option TSK_FS_FILE) : Nat :=
  match a_fs_file with
  | none => 0
  | some f =>
    match f.name with
    | none => 0
    | some nm => if nm.type = TSK_FS_NAME_TYPE_REG then 1 else 0


/-- Abbreviation for one per-attribute hook invocation,
`processAttribute(fs_file, tsk_fs_file_attr_get_idx(fs_file, i), path)`. -/
def attrHook (env : Env) (fs_file : TSK_FS_FILE) (path : List Nat)
    (i : Nat) : TSK_RETVAL_ENUM :=
  env.processAttribute fs_file (env.tsk_fs_file_attr_get_idx fs_file i) path

theorem processAttributesAux_all_ok (env : Env) (fs_file : TSK_FS_FILE)
    (path : List Nat) :
    ∀ n i, (∀ j, j < n → attrHook env fs_file path (i + j) = TSK_OK) →
      processAttributesAux env fs_file path i n = (TSK_OK, List.range' i n) := by
  intro n
  induction n with
  | zero => intro i _; simp [processAttributesAux]
  | succ n ih =>
    intro i h
    have h0 : env.processAttribute fs_file (env.tsk_fs_file_attr_get_idx fs_file i) path
        = TSK_OK := by
      simpa [attrHook] using h 0 (Nat.succ_pos n)
    have hrec : processAttributesAux env fs_file path (i + 1) n
        = (TSK_OK, List.range' (i + 1) n) := by
      apply ih
      intro j hj
      have hx := h (j + 1) (Nat.succ_lt_succ hj)
      have e : i + (j + 1) = i + 1 + j := by omega
      rwa [e] at hx
    simp [processAttributesAux, h0, hrec, List.range']

theorem processAttributesAux_first_bad (env : Env) (fs_file : TSK_FS_FILE)
    (path : List Nat) :
    ∀ n i k, k < n →
      (∀ j, j < k → attrHook env fs_file path (i + j) = TSK_OK) →
      attrHook env fs_file path (i + k) ≠ TSK_OK →
      processAttributesAux env fs_file path i n =
        (attrHook env fs_file path (i + k), List.range' i (k + 1)) := by
  intro n
  induction n with
  | zero => intro i k hk _ _; exact absurd hk (Nat.not_lt_zero k)
  | succ n ih =>
    intro i k hk hok hbad
    cases k with
    | zero =>
      have hb : env.processAttribute fs_file (env.tsk_fs_file_attr_get_idx fs_file i) path
          ≠ TSK_OK := by
        simpa [attrHook] using hbad
      simp [processAttributesAux, hb, attrHook, List.range']
    | succ k =>
      have h0 : env.processAttribute fs_file (env.tsk_fs_file_attr_get_idx fs_file i) path
          = TSK_OK := by
        simpa [attrHook] using hok 0 (Nat.succ_pos k)
      have e1 : i + (k + 1) = i + 1 + k := by omega
      have hrec := ih (i + 1) k (by omega)
        (fun j hj => by
          have hx := hok (j + 1) (Nat.succ_lt_succ hj)
          have e : i + (j + 1) = i + 1 + j := by omega
          rwa [e] at hx)
        (by rwa [e1] at hbad)
      rw [e1]
      simp [processAttributesAux, h0, hrec, List.range']

/-- C6: `processAttributes` invokes the per-attribute hook by ascending
index starting at 0, at most `A = tsk_fs_file_attr_getsize` times: if
every hook invocation below `A` answers `TSK_OK` it performs exactly the
invocations `0 .. A-1` and returns `TSK_OK`; if `k < A` is the first
index whose hook result is not `TSK_OK`, it performs exactly the
invocations `0 .. k` and returns that result unchanged. -/
theorem C6_processAttributes_early_exit (env : Env) (fs_file : TSK_FS_FILE)
    (path : List Nat) :
    ((∀ i, i < env.tsk_fs_file_attr_getsize fs_file →
        attrHook env fs_file path i = TSK_OK) →
      processAttributes env fs_file path =
        (TSK_OK, List.range (env.tsk_fs_file_attr_getsize fs_file))) ∧
    (∀ k, k < env.tsk_fs_file_attr_getsize fs_file →
      (∀ j, j < k → attrHook env fs_file path j = TSK_OK) →
      attrHook env fs_file path k ≠ TSK_OK →
      processAttributes env fs_file path =
        (attrHook env fs_file path k, List.range (k + 1))) := by
  constructor
  · intro h
    rw [processAttributes, List.range_eq_range']
    apply processAttributesAux_all_ok
    intro j hj
    simpa using h j hj
  · intro k hk hok hbad
    rw [processAttributes, List.range_eq_range']
    have hmain := processAttributesAux_first_bad env fs_file path
      (env.tsk_fs_file_attr_getsize fs_file) 0 k hk
      (by simpa using hok) (by simpa using hbad)
    simpa using hmain

/-- C1: for a partition admitted by the partition filter, `vsWalkCb`
propagates a `TSK_STOP` outcome of the per-partition file-system walk
(`findFilesInFsRet` at `start * block_size`) as `TSK_WALK_STOP`, and
absorbs an ordinary error outcome (`TSK_ERR`) by clearing the shared
error slot and returning `TSK_WALK_CONT`. -/
theorem C1_vsWalkCb_stop_propagates_error_absorbed (env : Env) (tsk : TskAuto)
    (a_vs_part : TSK_VS_PART_INFO) (err : Bool)
    (htag : tsk.m_tag = TSK_AUTO_TAG)
    (hadm : env.filterVol a_vs_part = TSK_FILTER_CONT) :
    ((findFilesInFsRet env tsk (a_vs_part.start * a_vs_part.vs.block_size) err).1
        = TSK_STOP →
      (vsWalkCb env tsk a_vs_part err).1 = TSK_WALK_STOP) ∧
    ((findFilesInFsRet env tsk (a_vs_part.start * a_vs_part.vs.block_size) err).1
        = TSK_ERR →
      (vsWalkCb env tsk a_vs_part err).1 = TSK_WALK_CONT ∧
      (vsWalkCb env tsk a_vs_part err).2.1 = false) := by
  rcases hres : findFilesInFsRet env tsk (a_vs_part.start * a_vs_part.vs.block_size) err
    with ⟨r2, err2, tr⟩
  constructor
  · intro hstop
    simp at hstop
    simp [vsWalkCb, htag, hadm, hres, hstop]
  · intro herr
    simp at herr
    simp [vsWalkCb, htag, hadm, hres, herr]

/-- C2: when an image is open but no volume system can be opened at the
start offset, `findFilesInVs` clears the error recorded by the failed
probe and then behaves exactly like `findFilesInFs` at the same offset:
same result, same final error state, same event trace. -/
theorem C2_findFilesInVs_fallback_eq (env : Env) (tsk : TskAuto) (a_start : Nat)
    (err : Bool) (himg : tsk.m_img_info.isSome = true)
    (hvs : env.tsk_vs_open a_start = none) :
    findFilesInVs env tsk a_start err = findFilesInFs env tsk a_start false := by
  rcases himg2 : tsk.m_img_info with _ | h
  · rw [himg2] at himg
    simp at himg
  · rcases hfs : findFilesInFsRet env tsk a_start false with ⟨r, e, tr⟩
    simp only [findFilesInVs, findFilesInFs, himg2, hvs, hfs]
    cases r <;> simp

/-- C3: with a valid session tag, `dirWalkCb` translates the per-file
hook result to the lower layer exactly as `TSK_OK ↦ TSK_WALK_CONT`,
`TSK_STOP ↦ TSK_WALK_STOP`, `TSK_ERR ↦ TSK_WALK_ERROR`. -/
theorem C3_dirWalkCb_maps_results (env : Env) (tsk : TskAuto)
    (a_fs_file : TSK_FS_FILE) (a_path : List Nat)
    (htag : tsk.m_tag = TSK_AUTO_TAG) :
    (dirWalkCb env tsk a_fs_file a_path).1 =
      (match env.processFile a_fs_file a_path with
        | TSK_OK => TSK_WALK_CONT
        | TSK_STOP => TSK_WALK_STOP
        | TSK_ERR => TSK_WALK_ERROR) := by
  cases hp : env.processFile a_fs_file a_path <;> simp [dirWalkCb, htag, hp]

/-- C4: with a valid session tag, a `TSK_FILTER_SKIP` verdict of the
partition filter makes `vsWalkCb` return `TSK_WALK_CONT` with no
file-system open performed for the partition, and a `TSK_FILTER_STOP`
verdict makes it return `TSK_WALK_STOP` immediately. -/
theorem C4_vsWalkCb_filter_verdicts (env : Env) (tsk : TskAuto)
    (a_vs_part : TSK_VS_PART_INFO) (err : Bool)
    (htag : tsk.m_tag = TSK_AUTO_TAG) :
    (env.filterVol a_vs_part = TSK_FILTER_SKIP →
      vsWalkCb env tsk a_vs_part err =
        (TSK_WALK_CONT, err, [Event.evFilterVol a_vs_part.start]) ∧
      ∀ e ∈ (vsWalkCb env tsk a_vs_part err).2.2, e.isFsOpen = false) ∧
    (env.filterVol a_vs_part = TSK_FILTER_STOP →
      vsWalkCb env tsk a_vs_part err =
        (TSK_WALK_STOP, err, [Event.evFilterVol a_vs_part.start])) := by
  constructor
  · intro hskip
    have hcb : vsWalkCb env tsk a_vs_part err =
        (TSK_WALK_CONT, err, [Event.evFilterVol a_vs_part.start]) := by
      simp [vsWalkCb, htag, hskip]
    refine ⟨hcb, ?_⟩
    rw [hcb]
    intro e he
    simp at he
    subst he
    rfl
  · intro hstop
    simp [vsWalkCb, htag, hstop]

/-- C5: a `TSK_FILTER_SKIP` verdict of the file-system filter makes
`findFilesInFsInt` return `TSK_OK` without launching a directory walk,
a `TSK_FILTER_STOP` verdict makes it return `TSK_STOP`, and both
callers (`findFilesInFsRet` and the inum overload of `findFilesInFs`)
close the opened file-system handle as their last action. -/
theorem C5_fs_filter_and_close (env : Env) (tsk : TskAuto) (fs : TSK_FS_INFO)
    (a_inum : Nat) (a_start : Nat) (err : Bool)
    (himg : tsk.m_img_info.isSome = true)
    (hopen : env.tsk_fs_open_img a_start = some fs) :
    (env.filterFs fs = TSK_FILTER_SKIP →
      findFilesInFsInt env tsk fs a_inum err =
        (TSK_OK, err, [Event.evFilterFs a_inum]) ∧
      ∀ e ∈ (findFilesInFsInt env tsk fs a_inum err).2.2, e.isDirWalk = false) ∧
    (env.filterFs fs = TSK_FILTER_STOP →
      findFilesInFsInt env tsk fs a_inum err =
        (TSK_STOP, err, [Event.evFilterFs a_inum])) ∧
    (findFilesInFsRet env tsk a_start err).2.2.getLast?
      = some (Event.evFsClose a_start) ∧
    (findFilesInFsInum env tsk a_start a_inum err).2.2.getLast?
      = some (Event.evFsClose a_start) := by
  rcases himg2 : tsk.m_img_info with _ | h
  · rw [himg2] at himg
    simp at himg
  · refine ⟨?_, ?_, ?_, ?_⟩
    · intro hskip
      have hcb : findFilesInFsInt env tsk fs a_inum err =
          (TSK_OK, err, [Event.evFilterFs a_inum]) := by
        simp [findFilesInFsInt, hskip]
      refine ⟨hcb, ?_⟩
      rw [hcb]
      intro e he
      simp at he
      subst he
      rfl
    · intro hstop
      simp [findFilesInFsInt, hstop]
    · rcases hint : findFilesInFsInt env tsk fs fs.root_inum err with ⟨r, e2, tr⟩
      simp only [findFilesInFsRet, himg2, hopen, hint]
      rw [List.getLast?_concat]
    · rcases hint : findFilesInFsInt env tsk fs a_inum err with ⟨r, e2, tr⟩
      simp only [findFilesInFsInum, himg2, hopen, hint]
      rw [List.getLast?_concat]

/-- C7: when the session tag differs from the sentinel `TSK_AUTO_TAG`,
both callbacks return `TSK_WALK_STOP` at once, with the error slot
untouched and no filter or hook invoked (empty event trace); the
destructor zeroes the tag, so a destroyed session always takes this
path. -/
theorem C7_tag_guard_fails_closed (env : Env) (tsk : TskAuto)
    (a_vs_part : TSK_VS_PART_INFO) (err : Bool) (a_fs_file : TSK_FS_FILE)
    (a_path : List Nat) (htag : tsk.m_tag ≠ TSK_AUTO_TAG) :
    vsWalkCb env tsk a_vs_part err = (TSK_WALK_STOP, err, []) ∧
    dirWalkCb env tsk a_fs_file a_path = (TSK_WALK_STOP, []) ∧
    (∀ t : TskAuto, (destructTskAuto t).1.m_tag ≠ TSK_AUTO_TAG) := by
  refine ⟨by simp [vsWalkCb, htag], by simp [dirWalkCb, htag], ?_⟩
  intro t
  have hz : (destructTskAuto t).1.m_tag = 0 := by
    rcases h : t.m_img_info with _ | i <;> simp [destructTskAuto, closeImage, h]
  rw [hz]
  decide

/-- C8: `openImage` closes a previously open image exactly once (and
performs no close when none is open) before opening the new image; if
the new open fails it returns 1 and leaves the session with no open
image, and if it succeeds it returns 0 with the new handle installed. -/
theorem C8_openImage_close_once (env : Env) (tsk : TskAuto) (args : Nat) :
    ((openImage env tsk args).2.2.countP Event.isImgClose =
      if tsk.m_img_info.isSome then 1 else 0) ∧
    (env.tsk_img_open args = none →
      (openImage env tsk args).1 = 1 ∧
      (openImage env tsk args).2.1.m_img_info = none) ∧
    (∀ h, env.tsk_img_open args = some h →
      (openImage env tsk args).1 = 0 ∧
      (openImage env tsk args).2.1.m_img_info = some h) := by
  rcases himg : tsk.m_img_info with _ | i <;>
    rcases hopen : env.tsk_img_open args with _ | nh <;>
      simp [openImage, closeImage, himg, hopen, Event.isImgClose]

/-- C10: the `uint8_t` entry points report a caller-stopped walk as
success: `findFilesInFs` returns 1 exactly when the internal outcome is
`TSK_ERR`, so a `TSK_STOP` outcome yields 0, and likewise for the
offset-plus-inum overload. -/
theorem C10_stop_reported_as_success (env : Env) (tsk : TskAuto)
    (a_start a_inum : Nat) (err : Bool) (fs : TSK_FS_INFO)
    (himg : tsk.m_img_info.isSome = true)
    (hopen : env.tsk_fs_open_img a_start = some fs) :
    ((findFilesInFs env tsk a_start err).1 =
      if (findFilesInFsRet env tsk a_start err).1 = TSK_ERR then 1 else 0) ∧
    ((findFilesInFsRet env tsk a_start err).1 = TSK_STOP →
      (findFilesInFs env tsk a_start err).1 = 0) ∧
    ((findFilesInFsInum env tsk a_start a_inum err).1 =
      if (findFilesInFsInt env tsk fs a_inum err).1 = TSK_ERR then 1 else 0) ∧
    ((findFilesInFsInt env tsk fs a_inum err).1 = TSK_STOP →
      (findFilesInFsInum env tsk a_start a_inum err).1 = 0) := by
  rcases himg2 : tsk.m_img_info with _ | h
  · rw [himg2] at himg
    simp at himg
  · rcases hret : findFilesInFsRet env tsk a_start err with ⟨r1, e1, t1⟩
    rcases hint : findFilesInFsInt env tsk fs a_inum err with ⟨r2, e2, t2⟩
    refine ⟨?_, ?_, ?_, ?_⟩
    · simp [findFilesInFs, hret]
    · intro hstop
      simp at hstop
      simp [findFilesInFs, hret, hstop]
    · simp [findFilesInFsInum, himg2, hopen, hint]
    · intro hstop
      simp at hstop
      simp [findFilesInFsInum, himg2, hopen, hint, hstop]

/-- Failing input for the dot-directory predicate: an allocated
regular-file directory entry whose name buffer holds ".". -/
def dotRegName : TSK_FS_NAME :=
  { flags := TSK_FS_NAME_FLAG_ALLOC
    type := TSK_FS_NAME_TYPE_REG
    name := [46, 0]
    name_size := 2
    meta_addr := 5 }

/-- The file handle wrapping `dotRegName`. -/
def dotRegFile : TSK_FS_FILE := { fs_info := none, name := some dotRegName }

/-- C9 (code bug): `isDotDir` tests `name->flags & TSK_FS_NAME_TYPE_DIR`
(the allocation-flag word masked with a type code) instead of
`name->type == TSK_FS_NAME_TYPE_DIR` as the sibling `isDir` does, so it
returns 1 on an allocated regular file named "." — an entry that the
code itself classifies as a non-directory (`isDir` 0, `isFile` 1). -/
theorem C9_isDotDir_accepts_non_directory :
    isDotDir (some dotRegFile) [] = 1 ∧
    dotRegName.type ≠ TSK_FS_NAME_TYPE_DIR ∧
    isDir (some dotRegFile) = 0 ∧
    isFile (some dotRegFile) = 1 := by
  decide

/-- Concrete file-system record used by the evaluation fixtures. -/
def fsW : TSK_FS_INFO := { root_inum := 2, ftype := 1 }

/-- Concrete file handle used by the evaluation fixtures. -/
def fileW : TSK_FS_FILE := { fs_info := some fsW, name := none }

/-- Benign concrete environment: every collaborator succeeds and every
hook admits or answers `TSK_OK`. -/
def envW : Env :=
  { tsk_img_open := fun _ => some 7
    tsk_vs_open := fun _ => none
    tsk_vs_part_walk := fun _ _ _ _ e => (0, e)
    tsk_fs_open_img := fun _ => some fsW
    tsk_fs_dir_walk := fun _ _ _ e => (0, e)
    tsk_fs_file_attr_getsize := fun _ => 2
    tsk_fs_file_attr_get_idx := fun _ i => { attr_id := i }
    filterVol := fun _ => TSK_FILTER_CONT
    filterFs := fun _ => TSK_FILTER_CONT
    processFile := fun _ _ => TSK_OK
    processAttribute := fun _ _ _ => TSK_OK }

/-- Session fixture with a valid tag and an open image. -/
def tskW : TskAuto :=
  { m_img_info := some 7
    m_tag := TSK_AUTO_TAG
    m_volFilterFlags := TSK_VS_PART_FLAG_ALLOC
    m_fileFilterFlags := TSK_FS_DIR_WALK_FLAG_RECURSE }

/-- Session fixture whose tag was zeroed (as by the destructor). -/
def tskBad : TskAuto := { tskW with m_tag := 0 }

/-- Partition fixture (start sector 1 in a 512-byte-block volume system). -/
def partW : TSK_VS_PART_INFO :=
  { start := 1, vs := { block_size := 512, part_count := 2 } }

/-- Environment whose file-system probe always fails. -/
def envFsErr : Env := { envW with tsk_fs_open_img := fun _ => none }

/-- Environment whose partition filter always answers skip. -/
def envSkipVol : Env := { envW with filterVol := fun _ => TSK_FILTER_SKIP }

/-- Environment whose file-system filter always answers skip. -/
def envSkipFs : Env := { envW with filterFs := fun _ => TSK_FILTER_SKIP }

/-- Environment whose file-system filter always answers stop. -/
def envStopFs : Env := { envW with filterFs := fun _ => TSK_FILTER_STOP }

/-- Environment whose per-attribute hook answers `TSK_STOP` at index 1. -/
def envAttrStop : Env :=
  { envW with
      tsk_fs_file_attr_getsize := fun _ => 3
      processAttribute := fun _ a _ => if a.attr_id = 1 then TSK_STOP else TSK_OK }

/-- Witness for C1: on a session whose file-system probe fails, the
callback continues with the error slot cleared. -/
theorem C1_witness :
    (vsWalkCb envFsErr tskW partW true).1 = TSK_WALK_CONT ∧
    (vsWalkCb envFsErr tskW partW true).2.1 = false :=
  (C1_vsWalkCb_stop_propagates_error_absorbed envFsErr tskW partW true rfl rfl).2
    (by decide)

/-- Witness for C2 at offset 0 with an error pending from the probe. -/
theorem C2_witness :
    findFilesInVs envW tskW 0 true = findFilesInFs envW tskW 0 false :=
  C2_findFilesInVs_fallback_eq envW tskW 0 true rfl rfl

/-- Witness for C3: an `TSK_OK` hook result keeps the walk going. -/
theorem C3_witness : (dirWalkCb envW tskW fileW []).1 = TSK_WALK_CONT :=
  (C3_dirWalkCb_maps_results envW tskW fileW [] rfl).trans (by decide)

/-- Witness for C4: a skipped partition yields continue with only the
filter invocation in the trace. -/
theorem C4_witness :
    vsWalkCb envSkipVol tskW partW false =
      (TSK_WALK_CONT, false, [Event.evFilterVol partW.start]) :=
  ((C4_vsWalkCb_filter_verdicts envSkipVol tskW partW false rfl).1 rfl).1

/-- Witness for C5: a skipped file system reports `TSK_OK` with no
directory walk, and the caller's trace ends by closing the handle. -/
theorem C5_witness :
    findFilesInFsInt envSkipFs tskW fsW 2 false =
      (TSK_OK, false, [Event.evFilterFs 2]) ∧
    (findFilesInFsRet envSkipFs tskW 0 false).2.2.getLast?
      = some (Event.evFsClose 0) :=
  ⟨((C5_fs_filter_and_close envSkipFs tskW fsW 2 0 false rfl rfl).1 rfl).1,
    (C5_fs_filter_and_close envSkipFs tskW fsW 2 0 false rfl rfl).2.2.1⟩

/-- Witness for C6: all-ok enumeration of 2 attributes, and early exit
at index 1 out of 3 with the hook's `TSK_STOP` surfaced unchanged. -/
theorem C6_witness :
    processAttributes envW fileW [] = (TSK_OK, List.range 2) ∧
    processAttributes envAttrStop fileW [] = (TSK_STOP, List.range 2) := by
  constructor
  · exact (C6_processAttributes_early_exit envW fileW []).1 (by decide)
  · have h := (C6_processAttributes_early_exit envAttrStop fileW []).2 1
      (by decide) (by decide) (by decide)
    rw [h]
    decide

/-- Witness for C7: a zero-tag session stops both callbacks cold. -/
theorem C7_witness :
    vsWalkCb envW tskBad partW false = (TSK_WALK_STOP, false, []) ∧
    dirWalkCb envW tskBad fileW [] = (TSK_WALK_STOP, []) :=
  ⟨(C7_tag_guard_fails_closed envW tskBad partW false fileW [] (by decide)).1,
    (C7_tag_guard_fails_closed envW tskBad partW false fileW [] (by decide)).2.1⟩

/-- Witness for C8: re-opening over an open image closes it once. -/
theorem C8_witness :
    (openImage envW tskW 0).2.2.countP Event.isImgClose = 1 := by
  have h := (C8_openImage_close_once envW tskW 0).1
  simpa [tskW] using h

/-- Witness for C10: a walk stopped by the file-system filter is
reported as success (0) by both `uint8_t` entry points. -/
theorem C10_witness :
    (findFilesInFs envStopFs tskW 0 false).1 = 0 ∧
    (findFilesInFsInum envStopFs tskW 0 5 false).1 = 0 :=
  ⟨(C10_stop_reported_as_success envStopFs tskW 0 5 false fsW rfl rfl).2.1
      (by decide),
    (C10_stop_reported_as_success envStopFs tskW 0 5 false fsW rfl rfl).2.2.2
      (by decide)⟩

end TskAutoModel
